import Mathlib

/-!
Verification development for the rainfall visualization repository.

The repository contains two near-duplicate programs:
* `rainfall_visualizer.py` — a Hong Kong yearly bar-chart animation
  (class `HKRainfallVisualizer`), and
* `src/data_loader.py` + `src/map_animator.py` — a world-map scatter animation
  (classes `RainfallDataLoader`, `RainfallMapAnimator`).

Below, each Python method that the claims touch is embedded as a pure Lean
function over explicit data.  Machine floats are modelled as rationals,
pandas data frames as lists of records, and the matplotlib drawing surface as
explicit frame-state structures.
-/

namespace HKRainfall

/-- One cleaned daily rainfall row of `rainfall_visualizer.py` after
`load_data` has coerced `Year`, `Month`, `Day` to integers and parsed
`Rainfall_mm` to a number (rows with unparseable dates or values are dropped
before any of the functions below run). -/
structure RawRecord where
  year : Nat
  month : Nat
  day : Nat
  rainfall : ℚ
deriving Repr, DecidableEq

/-- The pandas groupby key `['Year', 'Month']` of a record. -/
def recordKey (r : RawRecord) : Nat × Nat := (r.year, r.month)

/-- The `Date` column derived from a record's year, month and day; pandas
datetimes compare lexicographically on this triple. -/
def recordDate (r : RawRecord) : Nat × Nat × Nat := (r.year, r.month, r.day)

/-- One row of `self.monthly_data` as produced by
`calculate_monthly_totals`: the group key, the summed rainfall, and the
`'first'`-aggregated date of the group. -/
structure PeriodSummary where
  year : Nat
  month : Nat
  total : ℚ
  date : Nat × Nat × Nat
deriving Repr, DecidableEq

/-- The sub-dataframe of records whose `Year`/`Month` equal `y`/`m`. -/
def matching (records : List RawRecord) (y m : Nat) : List RawRecord :=
  records.filter (fun r => r.year == y && r.month == m)

/-- The aggregated row the groupby produces for one key `p`:
`'Rainfall_mm': 'sum'` and `'Date': 'first'` (first date of the group in
input order; the `(0,0,0)` default is unreachable for keys that occur). -/
def summaryFor (records : List RawRecord) (p : Nat × Nat) : PeriodSummary :=
  { year := p.1
    month := p.2
    total := ((matching records p.1 p.2).map RawRecord.rainfall).sum
    date :=
      match (matching records p.1 p.2).head? with
      | some r => recordDate r
      | none => (0, 0, 0) }

/-- Lexicographic comparison of pandas datetimes, the order
`sort_values('Date')` uses. -/
def dateLe (a b : Nat × Nat × Nat) : Bool :=
  decide (a.1 < b.1) ||
    (decide (a.1 = b.1) &&
      (decide (a.2.1 < b.2.1) ||
        (decide (a.2.1 = b.2.1) && decide (a.2.2 ≤ b.2.2))))

/-- `HKRainfallVisualizer.calculate_monthly_totals`: group the daily records
by `(Year, Month)`, aggregate rainfall with `sum` and the date with
`'first'`, then `sort_values('Date')`.  The distinct group keys are the
deduplicated record keys; the final ordering is entirely determined by the
date sort, so the pre-sort key order is irrelevant. -/
def calculate_monthly_totals (records : List RawRecord) : List PeriodSummary :=
  ((records.map recordKey).dedup.map (summaryFor records)).mergeSort
    (fun a b => dateLe a.date b.date)

/-- The five gradient colors `blues` of `get_bar_color`. -/
def blues : List String :=
  ["#87CEEB", "#4682B4", "#1E90FF", "#0000FF", "#000080"]

/-- Python `int()` truncation toward zero on a rational: the truncating
division of the reduced numerator by the denominator. -/
def pyInt (q : ℚ) : ℤ :=
  Int.tdiv q.num q.den

/-- `HKRainfallVisualizer.get_bar_color`: yellow below 50, a five-step blue
gradient (index `int(normalized * 4)`, clamped with `min`) on `[50, 600]`,
black above 600. -/
def get_bar_color (rainfall_mm : ℚ) : String :=
  if rainfall_mm < 50 then
    "#FFD700"
  else if rainfall_mm ≤ 600 then
    let normalized := (rainfall_mm - 50) / (600 - 50)
    let idx := (pyInt (normalized * 4)).toNat
    blues.getD (min idx (blues.length - 1)) "#000000"
  else
    "#000000"

/-- Python `max` over a nonempty list (the empty-list default 0 is never
used by the renderer, which always passes 12 values). -/
def pyMax : List ℚ → ℚ
  | [] => 0
  | a :: rest => rest.foldl max a

/-- Python `min` over a nonempty list. -/
def pyMin : List ℚ → ℚ
  | [] => 0
  | a :: rest => rest.foldl min a

/-- The value `update_yearly_frame` picks for one month: the first matching
row's `Rainfall_mm` (`month_data.iloc[0]`), or `0.0` when the month is
absent from the year's data. -/
def monthValue (yearData : List PeriodSummary) (month : Nat) : ℚ :=
  match (yearData.filter (fun s => s.month == month)).head? with
  | some s => s.total
  | none => 0

/-- The renderable state `update_yearly_frame` computes for one year: the
twelve bar values (Jan..Dec), their colors, the statistics line's numbers,
the indices of the wettest and driest months, and the y-positions of the
twelve bar labels. -/
structure BarFrame where
  values : List ℚ
  colors : List String
  total : ℚ
  avg : ℚ
  wettestIdx : Nat
  driestIdx : Nat
  labelYs : List ℚ
deriving Repr, DecidableEq

/-- The frame `update_yearly_frame` draws for a nonempty year subset: the
twelve values (Jan..Dec, `0.0` for absent months), each bar colored with
`get_bar_color`, `total`, `avg = total / 12`, the first index attaining the
maximum (`rainfall_values.index(max(rainfall_values))`) and the minimum,
and a label for every bar positioned at `30` when its height is below `30`
and at `height + 15` otherwise. -/
def build_yearly_frame (yearData : List PeriodSummary) : BarFrame :=
  let values := (List.range 12).map (fun i => monthValue yearData (i + 1))
  { values := values
    colors := values.map get_bar_color
    total := values.sum
    avg := values.sum / 12
    wettestIdx := values.findIdx (fun v => decide (v = pyMax values))
    driestIdx := values.findIdx (fun v => decide (v = pyMin values))
    labelYs := values.map (fun v => if v < 30 then 30 else v + 15) }

/-- `HKRainfallVisualizer.update_yearly_frame` as a pure frame builder:
filter the monthly data to the requested year, return no frame when the
year's subset is empty (mirroring the early `return`), and otherwise draw
the bar frame described by `build_yearly_frame`. -/
def update_yearly_frame (monthly : List PeriodSummary) (year : Nat) :
    Option BarFrame :=
  let yearData := monthly.filter (fun s => s.year == year)
  if yearData.isEmpty then none
  else some (build_yearly_frame yearData)

/-- Playback state of the bar-chart animation driver: the stored
`base_interval` and `current_speed`, the running `FuncAnimation`'s timer
interval, and the index of the next frame that animation's frame iterator
will render. -/
structure AnimState where
  baseInterval : ℚ
  interval : ℤ
  currentSpeed : ℚ
  nextFrame : Nat
deriving Repr, DecidableEq

/-- `HKRainfallVisualizer.set_speed`: store the speed, pause the running
animation, compute `int(self.base_interval / speed)`, and construct a NEW
`FuncAnimation` over the full frame range before resuming.  A freshly
constructed `FuncAnimation` obtains a fresh frame iterator, so the next
frame it renders is index 0 regardless of where the previous animation
stood. -/
def set_speed (st : AnimState) (speed : ℚ) : AnimState :=
  { baseInterval := st.baseInterval
    interval := pyInt (st.baseInterval / speed)
    currentSpeed := speed
    nextFrame := 0 }

/-- `HKRainfallVisualizer.load_data` wraps the whole CSV read and clean in
`try/except` and returns `False` on any exception — in particular when the
file is missing — with no synthetic fallback; on success it returns `True`
with the cleaned records.  The argument is `none` when the source file does
not exist (the `pd.read_csv` call raises), `some rows` when it exists and
parses; the per-row cleaning is orthogonal to the missing-file policy and is
represented by the already-cleaned rows. -/
def load_data (file : Option (List RawRecord)) :
    Bool × Option (List RawRecord) :=
  match file with
  | some rows => (true, some rows)
  | none => (false, none)

end HKRainfall

namespace MapViz

/-- One row of the map variant's dataframe: year, month, coordinates,
rainfall and a location name, as produced by `RainfallDataLoader`. -/
structure MapRecord where
  year : Nat
  month : Nat
  latitude : ℚ
  longitude : ℚ
  rainfall : ℚ
  city : String
deriving Repr, DecidableEq

/-- `RainfallDataLoader.get_data_for_period`: the rows whose year and month
match. -/
def get_data_for_period (data : List MapRecord) (year month : Nat) :
    List MapRecord :=
  data.filter (fun r => r.year == year && r.month == month)

/-- The point-size mapping `np.clip(rainfall * 2, 20, 200)` used by
`RainfallMapAnimator.animate_frame` and `show_static_frame`. -/
def size_for (v : ℚ) : ℚ :=
  min (max (v * 2) 20) 200

/-- The month-name table of `animate_frame`. -/
def month_names : List String :=
  ["Jan", "Feb", "Mar", "Apr", "May", "Jun",
   "Jul", "Aug", "Sep", "Oct", "Nov", "Dec"]

/-- `year = min_year + frame // 12` from `animate_frame`. -/
def frameYear (min_year frame : Nat) : Nat := min_year + frame / 12

/-- `month = (frame % 12) + 1` from `animate_frame`. -/
def frameMonth (frame : Nat) : Nat := frame % 12 + 1

/-- `self.total_frames = (max_year - min_year + 1) * 12` from
`create_animation`. -/
def total_frames (min_year max_year : Nat) : Nat :=
  (max_year - min_year + 1) * 12

/-- The mutable scatter-artist state `animate_frame` updates in place:
point offsets (longitude, latitude), the color array of rainfall values,
point sizes, and the axis title. -/
structure ScatterState where
  offsets : List (ℚ × ℚ)
  values : List ℚ
  sizes : List ℚ
  title : String
deriving Repr, DecidableEq

/-- `RainfallMapAnimator.animate_frame`: derive (year, month) from the frame
index, select the matching rows, and — only when that subset is nonempty —
overwrite the scatter offsets, color array, sizes and title.  When the
subset is empty the `if not frame_data.empty` guard skips every update and
the previous frame's scatter state is returned unchanged. -/
def animate_frame (data : List MapRecord) (min_year : Nat)
    (st : ScatterState) (frame : Nat) : ScatterState :=
  let year := frameYear min_year frame
  let month := frameMonth frame
  let fd := get_data_for_period data year month
  if fd.isEmpty then st
  else
    { offsets := fd.map (fun r => (r.longitude, r.latitude))
      values := fd.map MapRecord.rainfall
      sizes := fd.map (fun r => size_for r.rainfall)
      title := "Monthly Average Rainfall: " ++ month_names.getD (month - 1) ""
        ++ " " ++ toString year }

/-- The eight fixed sample locations of
`RainfallDataLoader.generate_sample_data` as (city, latitude, longitude). -/
def sampleLocations : List (String × ℚ × ℚ) :=
  [("London", 51.5074, -0.1278),
   ("New York", 40.7128, -74.0060),
   ("Tokyo", 35.6762, 139.6503),
   ("Sydney", -33.8688, 151.2093),
   ("Mumbai", 19.0760, 72.8777),
   ("Cairo", 30.0444, 31.2357),
   ("São Paulo", -23.5505, -46.6333),
   ("Moscow", 55.7558, 37.6176)]

/-- `RainfallDataLoader.generate_sample_data`: one row per
(year 1924..2023, month 1..12, location).  The numeric value of a row is
`max(0, base_rainfall + variation)` where the seasonal base and the noise
come from numpy's random generator; the embedding abstracts the sampled
quantity `base_rainfall + variation` into the function `draw`, keeping the
deterministic structure — the year range, the twelve months, the eight
fixed locations and the clamp to non-negative. -/
def generate_sample_data (draw : Nat → Nat → Nat → ℚ) : List MapRecord :=
  (List.range 100).flatMap fun yi =>
    (List.range 12).flatMap fun mi =>
      (List.range sampleLocations.length).map fun li =>
        let loc := sampleLocations.getD li ("", 0, 0)
        { year := 1924 + yi
          month := mi + 1
          latitude := loc.2.1
          longitude := loc.2.2
          rainfall := max 0 (draw (1924 + yi) (mi + 1) li)
          city := loc.1 }

/-- `RainfallDataLoader.load_data`: `pd.read_csv` inside `try`; on
`FileNotFoundError` it falls back to `generate_sample_data()` instead of
raising.  The argument is `none` when the data file does not exist, `some d`
when it exists and parses to the rows `d`. -/
def load_data (file : Option (List MapRecord))
    (draw : Nat → Nat → Nat → ℚ) : List MapRecord :=
  match file with
  | some d => d
  | none => generate_sample_data draw

end MapViz

/-- Strict chronological order on `(year, month)` period keys. -/
def periodLt (p q : Nat × Nat) : Prop :=
  p.1 < q.1 ∨ (p.1 = q.1 ∧ p.2 < q.2)

/-- The concrete map dataset for the empty-period scenario: a single
location with data only for January 2000, so February 2000 (frame 1) has an
empty matching subset. -/
def c2data : List MapViz.MapRecord :=
  [⟨2000, 1, 22, 114, 100, "HK"⟩]

/-- Concrete daily records for the aggregation scenario: two June-1990 rows
with rainfall 120.5 and 30. -/
def c4records : List HKRainfall.RawRecord :=
  [⟨1990, 6, 15, 120.5⟩, ⟨1990, 6, 20, 30⟩]

/-- Concrete aggregated monthly data with three populated months in the
year 2000 (February, July, November). -/
def c5monthly : List HKRainfall.PeriodSummary :=
  [⟨2000, 2, 100, (2000, 2, 5)⟩, ⟨2000, 7, 300, (2000, 7, 1)⟩,
   ⟨2000, 11, 50, (2000, 11, 3)⟩]

/-- Concrete daily records containing only January 2000, so January 1999
matches no record. -/
def c7records : List HKRainfall.RawRecord :=
  [⟨2000, 1, 1, 5⟩]

lemma pyInt_intCast (n : ℤ) : HKRainfall.pyInt (n : ℚ) = n := by
  simp [HKRainfall.pyInt]

lemma get_bar_color_fifty : HKRainfall.get_bar_color 50 = "#87CEEB" := by
  simp only [HKRainfall.get_bar_color]
  rw [if_neg (by norm_num), if_pos (by norm_num),
    show ((50 : ℚ) - 50) / (600 - 50) * 4 = ((0 : ℤ) : ℚ) by norm_num,
    pyInt_intCast]
  rfl

lemma get_bar_color_six_hundred : HKRainfall.get_bar_color 600 = "#000080" := by
  simp only [HKRainfall.get_bar_color]
  rw [if_neg (by norm_num), if_pos (by norm_num),
    show ((600 : ℚ) - 50) / (600 - 50) * 4 = ((4 : ℤ) : ℚ) by norm_num,
    pyInt_intCast]
  rfl

/-- C1: `set_speed(2.0)` at base interval 1500 with the running animation
about to render frame 48 does recompute the interval to `1500 / 2 = 750`,
but because it constructs a new `FuncAnimation`, the next rendered frame
index is 0, not 48 — the sequence position is NOT preserved, contradicting
the claim. -/
theorem set_speed_resets_progress_failing :
    (HKRainfall.set_speed ⟨1500, 1500, 1, 48⟩ 2).interval = 750 ∧
    (HKRainfall.set_speed ⟨1500, 1500, 1, 48⟩ 2).nextFrame = 0 ∧
    (HKRainfall.set_speed ⟨1500, 1500, 1, 48⟩ 2).nextFrame ≠ 48 := by
  refine ⟨?_, rfl, by decide⟩
  show HKRainfall.pyInt (1500 / 2) = 750
  rw [show ((1500 : ℚ) / 2) = ((750 : ℤ) : ℚ) by norm_num, pyInt_intCast]

/-- C2 counterexample: rendering frame 1 (February 2000), whose matching
subset is empty, after frame 0 (January 2000) leaves the January point in
the scatter state — the frame is not empty and the previous frame's point
data is retained, contradicting the claim. -/
theorem animate_frame_empty_period_retains_points :
    MapViz.get_data_for_period c2data 2000 2 = [] ∧
    (MapViz.animate_frame c2data 2000
        (MapViz.animate_frame c2data 2000 ⟨[], [], [], ""⟩ 0) 1).offsets
      = [(114, 22)] := by
  constructor
  · decide
  · rfl

/-- C2 amended: for a period whose matching subset is empty the renderer
does not fail and returns the previous frame's state unchanged (stale
points are retained, not cleared); for a period with a nonempty subset the
new frame's offsets, color values and sizes are computed from that subset
alone, fully replacing the previous frame's point data. -/
theorem animate_frame_spec (data : List MapViz.MapRecord) (min_year : Nat)
    (st : MapViz.ScatterState) (frame : Nat) :
    (MapViz.get_data_for_period data (MapViz.frameYear min_year frame)
        (MapViz.frameMonth frame) = [] →
      MapViz.animate_frame data min_year st frame = st) ∧
    (MapViz.get_data_for_period data (MapViz.frameYear min_year frame)
        (MapViz.frameMonth frame) ≠ [] →
      (MapViz.animate_frame data min_year st frame).offsets
        = (MapViz.get_data_for_period data (MapViz.frameYear min_year frame)
            (MapViz.frameMonth frame)).map (fun r => (r.longitude, r.latitude)) ∧
      (MapViz.animate_frame data min_year st frame).values
        = (MapViz.get_data_for_period data (MapViz.frameYear min_year frame)
            (MapViz.frameMonth frame)).map MapViz.MapRecord.rainfall ∧
      (MapViz.animate_frame data min_year st frame).sizes
        = (MapViz.get_data_for_period data (MapViz.frameYear min_year frame)
            (MapViz.frameMonth frame)).map (fun r => MapViz.size_for r.rainfall)) := by
  constructor
  · intro h
    simp [MapViz.animate_frame, h]
  · intro h
    simp [MapViz.animate_frame, List.isEmpty_iff, h]

/-- C2 witness: the amended empty-period half applied to the concrete
one-location dataset at frame 1 (February 2000). -/
theorem animate_frame_spec_witness :
    MapViz.get_data_for_period c2data 2000
        (MapViz.frameMonth 1) = [] ∧
    MapViz.animate_frame c2data 2000 ⟨[], [], [], ""⟩ 1 = ⟨[], [], [], ""⟩ :=
  ⟨by decide, (animate_frame_spec c2data 2000 ⟨[], [], [], ""⟩ 1).1 (by decide)⟩

/-- C3: for every non-negative rainfall value, `get_bar_color` returns the
fixed warm constant below 50, one of the five fixed gradient colors on the
inclusive band `[50, 600]` (both 50 and 600 included, as witnessed by the
last two conjuncts), and the fixed black constant above 600. -/
theorem get_bar_color_bands (v : ℚ) (hv : 0 ≤ v) :
    (v < 50 → HKRainfall.get_bar_color v = "#FFD700") ∧
    (50 ≤ v → v ≤ 600 → HKRainfall.get_bar_color v ∈ HKRainfall.blues) ∧
    (600 < v → HKRainfall.get_bar_color v = "#000000") ∧
    HKRainfall.get_bar_color 50 = "#87CEEB" ∧
    HKRainfall.get_bar_color 50 ∈ HKRainfall.blues ∧
    HKRainfall.get_bar_color 600 = "#000080" ∧
    HKRainfall.get_bar_color 600 ∈ HKRainfall.blues := by
  refine ⟨fun h => ?_, fun h1 h2 => ?_, fun h => ?_, get_bar_color_fifty,
    by rw [get_bar_color_fifty]; simp [HKRainfall.blues],
    get_bar_color_six_hundred,
    by rw [get_bar_color_six_hundred]; simp [HKRainfall.blues]⟩
  · simp [HKRainfall.get_bar_color, h]
  · rw [HKRainfall.get_bar_color, if_neg (by exact not_lt.mpr h1), if_pos h2]
    have hlen : min ((HKRainfall.pyInt ((v - 50) / (600 - 50) * 4)).toNat)
        (HKRainfall.blues.length - 1) < HKRainfall.blues.length := by
      have : HKRainfall.blues.length = 5 := rfl
      omega
    rw [List.getD_eq_getElem _ _ hlen]
    exact List.getElem_mem hlen
  · rw [HKRainfall.get_bar_color, if_neg (by linarith), if_neg (by linarith)]

/-- C3 witness: the band classification applied at the concrete boundary
inputs 49.9, 50, 600 and 600.1. -/
theorem get_bar_color_bands_witness :
    ((0 : ℚ) ≤ 49.9 ∧ (49.9 : ℚ) < 50 ∧
      HKRainfall.get_bar_color 49.9 = "#FFD700") ∧
    ((0 : ℚ) ≤ 325 ∧ (50 : ℚ) ≤ 325 ∧ (325 : ℚ) ≤ 600 ∧
      HKRainfall.get_bar_color 325 ∈ HKRainfall.blues) ∧
    ((0 : ℚ) ≤ 600.1 ∧ (600 : ℚ) < 600.1 ∧
      HKRainfall.get_bar_color 600.1 = "#000000") :=
  ⟨⟨by norm_num, by norm_num,
      (get_bar_color_bands 49.9 (by norm_num)).1 (by norm_num)⟩,
    ⟨by norm_num, by norm_num, by norm_num,
      (get_bar_color_bands 325 (by norm_num)).2.1 (by norm_num) (by norm_num)⟩,
    ⟨by norm_num, by norm_num,
      (get_bar_color_bands 600.1 (by norm_num)).2.2.1 (by norm_num)⟩⟩

/-- C9: the scatter point size is the clamp `min (max (v*2) 20) 200`, is
monotone non-decreasing, and takes the claimed values at 0, 10 and 1000. -/
theorem size_for_clamp_monotone :
    (∀ u v : ℚ, u ≤ v → MapViz.size_for u ≤ MapViz.size_for v) ∧
    MapViz.size_for 0 = 20 ∧
    MapViz.size_for 10 = 20 ∧
    MapViz.size_for 1000 = 200 ∧
    ∀ v : ℚ, MapViz.size_for v = min (max (v * 2) 20) 200 := by
  refine ⟨fun u v h => ?_, by norm_num [MapViz.size_for, max_def, min_def],
    by norm_num [MapViz.size_for, max_def, min_def],
    by norm_num [MapViz.size_for, max_def, min_def], fun v => rfl⟩
  exact min_le_min (max_le_max (by linarith) le_rfl) le_rfl

/-- C9 witness: monotonicity applied at the concrete pair (3, 4). -/
theorem size_for_clamp_monotone_witness :
    (3 : ℚ) ≤ 4 ∧ MapViz.size_for 3 ≤ MapViz.size_for 4 :=
  ⟨by norm_num, size_for_clamp_monotone.1 3 4 (by norm_num)⟩

lemma length_flatMap_eq {α β : Type} (l : List α) (f : α → List β) (k : Nat)
    (h : ∀ a ∈ l, (f a).length = k) : (l.flatMap f).length = l.length * k := by
  induction l with
  | nil => simp
  | cons a t ih =>
    simp only [List.flatMap_cons, List.length_append, List.length_cons,
      ih (fun x hx => h x (List.mem_cons_of_mem a hx)),
      h a (List.mem_cons_self a t)]
    ring

/-- C8: the two variants follow their respective fixed missing-file
policies.  With a missing source file (`none`), the map-variant loader
returns the synthetic sample dataset — a nonempty dataset of
100 years × 12 months × 8 locations = 9600 rows — instead of failing,
while the bar-chart variant's `load_data` returns `False` with no data and
no synthetic fallback. -/
theorem missing_file_policies (draw : Nat → Nat → Nat → ℚ) :
    MapViz.load_data none draw = MapViz.generate_sample_data draw ∧
    (MapViz.generate_sample_data draw).length = 9600 ∧
    HKRainfall.load_data none = (false, none) := by
  refine ⟨rfl, ?_, rfl⟩
  rw [MapViz.generate_sample_data]
  rw [length_flatMap_eq _ _ 96 (fun a _ => ?_), List.length_range]
  · rw [length_flatMap_eq _ _ 8 (fun b _ => ?_), List.length_range]
    · simp [MapViz.sampleLocations]

/-- C10: the map animation has `(max_year - min_year + 1) * 12` frames;
frame `f` is rendered as period `(min_year + f / 12, f % 12 + 1)`, which
always lies in the data's year range with a valid month, is strictly
increasing in chronological order along the frame sequence, and reaches
every calendar month of every year in the range (hence, with strict
monotonicity, exactly once per cycle), whether or not data exists for it. -/
theorem frame_enumeration (miny maxy : Nat) (h : miny ≤ maxy) :
    MapViz.total_frames miny maxy = (maxy - miny + 1) * 12 ∧
    (∀ f, f < MapViz.total_frames miny maxy →
      miny ≤ MapViz.frameYear miny f ∧ MapViz.frameYear miny f ≤ maxy ∧
      1 ≤ MapViz.frameMonth f ∧ MapViz.frameMonth f ≤ 12) ∧
    (∀ f g, f < g → g < MapViz.total_frames miny maxy →
      periodLt (MapViz.frameYear miny f, MapViz.frameMonth f)
        (MapViz.frameYear miny g, MapViz.frameMonth g)) ∧
    (∀ y m, miny ≤ y → y ≤ maxy → 1 ≤ m → m ≤ 12 →
      ∃ f, f < MapViz.total_frames miny maxy ∧
        MapViz.frameYear miny f = y ∧ MapViz.frameMonth f = m) := by
  refine ⟨rfl, fun f hf => ?_, fun f g hfg hg => ?_, fun y m h1 h2 h3 h4 => ?_⟩
  · simp only [MapViz.total_frames, MapViz.frameYear, MapViz.frameMonth] at *
    omega
  · simp only [MapViz.total_frames, MapViz.frameYear, MapViz.frameMonth,
      periodLt] at *
    omega
  · refine ⟨(y - miny) * 12 + (m - 1), ?_, ?_, ?_⟩ <;>
      simp only [MapViz.total_frames, MapViz.frameYear, MapViz.frameMonth] <;>
      omega

/-- C10 witness: the enumeration applied to the sample data's year range
1924–2023, extracting the frame that renders July 2000. -/
theorem frame_enumeration_witness :
    1924 ≤ 2023 ∧
    ∃ f, f < MapViz.total_frames 1924 2023 ∧
      MapViz.frameYear 1924 f = 2000 ∧ MapViz.frameMonth f = 7 :=
  ⟨by norm_num,
    (frame_enumeration 1924 2023 (by norm_num)).2.2.2 2000 7
      (by norm_num) (by norm_num) (by norm_num) (by norm_num)⟩

namespace HKRainfall

lemma cmt_perm (records : List RawRecord) :
    (calculate_monthly_totals records).Perm
      ((records.map recordKey).dedup.map (summaryFor records)) := by
  unfold calculate_monthly_totals
  exact List.mergeSort_perm _ _

lemma mem_keys_iff (records : List RawRecord) (p : Nat × Nat) :
    p ∈ (records.map recordKey).dedup ↔ ∃ r ∈ records, recordKey r = p := by
  simp [List.mem_dedup, List.mem_map]

lemma countP_eq_one_of_nodup {α : Type} [DecidableEq α] {l : List α}
    (hn : l.Nodup) {a : α} (ha : a ∈ l) :
    l.countP (fun x => decide (x = a)) = 1 := by
  induction l with
  | nil => cases ha
  | cons b t ih =>
    rw [List.countP_cons]
    rcases List.mem_cons.mp ha with rfl | hat
    · have h0 : t.countP (fun x => decide (x = a)) = 0 := by
        refine List.countP_eq_zero.mpr ?_
        intro x hx hxb
        rw [decide_eq_true_eq] at hxb
        exact (List.nodup_cons.mp hn).1 (hxb ▸ hx)
      simp [h0]
    · have hba : ¬(b = a) := by
        rintro rfl
        exact (List.nodup_cons.mp hn).1 hat
      rw [ih (List.nodup_cons.mp hn).2 hat]
      simp [hba]

lemma dateLe_trans (a b c : Nat × Nat × Nat) :
    dateLe a b = true → dateLe b c = true → dateLe a c = true := by
  simp only [dateLe, Bool.or_eq_true, Bool.and_eq_true, decide_eq_true_eq]
  omega

lemma dateLe_total (a b : Nat × Nat × Nat) :
    (dateLe a b || dateLe b a) = true := by
  simp only [dateLe, Bool.or_eq_true, Bool.and_eq_true, decide_eq_true_eq]
  omega

lemma summaryFor_date_key (records : List RawRecord) (p : Nat × Nat)
    (hp : p ∈ (records.map recordKey).dedup) :
    (summaryFor records p).date.1 = p.1 ∧
    (summaryFor records p).date.2.1 = p.2 := by
  rw [mem_keys_iff] at hp
  obtain ⟨r, hr, hrk⟩ := hp
  have hmem : r ∈ matching records p.1 p.2 := by
    rw [matching, List.mem_filter]
    refine ⟨hr, ?_⟩
    have h1 : r.year = p.1 := congrArg Prod.fst hrk
    have h2 : r.month = p.2 := congrArg Prod.snd hrk
    simp [h1, h2]
  simp only [summaryFor]
  cases hh : (matching records p.1 p.2).head? with
  | none =>
    rw [List.head?_eq_none_iff] at hh
    rw [hh] at hmem
    cases hmem
  | some r0 =>
    have hr0 : r0 ∈ matching records p.1 p.2 :=
      List.mem_of_mem_head? (by rw [hh]; rfl)
    rw [matching, List.mem_filter, Bool.and_eq_true, beq_iff_eq,
      beq_iff_eq] at hr0
    exact ⟨hr0.2.1, hr0.2.2⟩

end HKRainfall

/-- C4: for every input record list and every period `(y, m)` with at least
one matching record, the aggregator output contains exactly one summary for
that period, and every output summary for that period carries the
arithmetic sum of the rainfall of all matching records. -/
theorem calculate_monthly_totals_sum_preservation
    (records : List HKRainfall.RawRecord) (y m : Nat)
    (h : ∃ r ∈ records, r.year = y ∧ r.month = m) :
    (HKRainfall.calculate_monthly_totals records).countP
        (fun s => decide (s.year = y ∧ s.month = m)) = 1 ∧
    ∀ s ∈ HKRainfall.calculate_monthly_totals records,
      s.year = y → s.month = m →
      s.total = ((HKRainfall.matching records y m).map
        HKRainfall.RawRecord.rainfall).sum := by
  constructor
  · rw [List.Perm.countP_eq _ (HKRainfall.cmt_perm records), List.countP_map]
    rw [List.countP_congr
        (q := fun p => decide (p = (y, m))) ?_]
    · refine HKRainfall.countP_eq_one_of_nodup (List.nodup_dedup _) ?_
      rw [HKRainfall.mem_keys_iff]
      obtain ⟨r, hr, hy, hm⟩ := h
      exact ⟨r, hr, by simp [HKRainfall.recordKey, hy, hm]⟩
    · intro p hp
      simp only [Function.comp, HKRainfall.summaryFor, decide_eq_true_eq]
      constructor
      · rintro ⟨h1, h2⟩
        exact Prod.ext h1 h2
      · rintro rfl
        exact ⟨rfl, rfl⟩
  · intro s hs hy hm
    have hs2 := (List.Perm.mem_iff (HKRainfall.cmt_perm records)).mp hs
    obtain ⟨p, hp, rfl⟩ := List.mem_map.mp hs2
    obtain ⟨p1, p2⟩ := p
    simp only [HKRainfall.summaryFor] at hy hm ⊢
    rw [hy, hm]

/-- C4 witness: the spec scenario — two June-1990 rows aggregate to exactly
one June-1990 summary. -/
theorem calculate_monthly_totals_sum_preservation_witness :
    (∃ r ∈ c4records, r.year = 1990 ∧ r.month = 6) ∧
    (HKRainfall.calculate_monthly_totals c4records).countP
      (fun s => decide (s.year = 1990 ∧ s.month = 6)) = 1 :=
  ⟨⟨⟨1990, 6, 15, 120.5⟩, List.mem_cons_self _ _, rfl, rfl⟩,
    (calculate_monthly_totals_sum_preservation c4records 1990 6
      ⟨⟨1990, 6, 15, 120.5⟩, List.mem_cons_self _ _, rfl, rfl⟩).1⟩

/-- C6: for every input record list, the aggregator output is strictly
ascending in chronological `(year, month)` order — every summary's period
precedes every later summary's period. -/
theorem calculate_monthly_totals_sorted (records : List HKRainfall.RawRecord) :
    (HKRainfall.calculate_monthly_totals records).Pairwise
      (fun a b => periodLt (a.year, a.month) (b.year, b.month)) := by
  have hsorted : (HKRainfall.calculate_monthly_totals records).Pairwise
      (fun a b => HKRainfall.dateLe a.date b.date = true) := by
    unfold HKRainfall.calculate_monthly_totals
    exact List.sorted_mergeSort
      (fun a b c => HKRainfall.dateLe_trans a.date b.date c.date)
      (fun a b => HKRainfall.dateLe_total a.date b.date) _
  have hne : (HKRainfall.calculate_monthly_totals records).Pairwise
      (fun a b => (a.year, a.month) ≠ (b.year, b.month)) := by
    rw [List.Perm.pairwise_iff (fun h h2 => h h2.symm)
      (HKRainfall.cmt_perm records)]
    rw [List.pairwise_map]
    refine (List.nodup_dedup (records.map HKRainfall.recordKey)).imp ?_
    intro p q hpq hcontra
    apply hpq
    obtain ⟨p1, p2⟩ := p
    obtain ⟨q1, q2⟩ := q
    simpa [HKRainfall.summaryFor, Prod.ext_iff] using hcontra
  have hdate : ∀ s ∈ HKRainfall.calculate_monthly_totals records,
      s.date.1 = s.year ∧ s.date.2.1 = s.month := by
    intro s hs
    have hs2 := (List.Perm.mem_iff (HKRainfall.cmt_perm records)).mp hs
    obtain ⟨p, hp, rfl⟩ := List.mem_map.mp hs2
    exact HKRainfall.summaryFor_date_key records p hp
  refine List.Pairwise.imp_of_mem ?_ (hsorted.and hne)
  intro a b ha hb hab
  obtain ⟨hle, hne2⟩ := hab
  have hda := hdate a ha
  have hdb := hdate b hb
  rw [HKRainfall.dateLe, Bool.or_eq_true, Bool.and_eq_true, Bool.or_eq_true,
    Bool.and_eq_true, decide_eq_true_eq, decide_eq_true_eq, decide_eq_true_eq,
    decide_eq_true_eq, decide_eq_true_eq] at hle
  rw [hda.1, hda.2, hdb.1, hdb.2] at hle
  rw [Ne, Prod.mk.injEq] at hne2
  simp only [periodLt]
  omega

/-- C7: for every period with zero matching input records, the aggregator
output contains no summary for that period — absence of an entry, not a
zero-valued entry. -/
theorem calculate_monthly_totals_absent_period
    (records : List HKRainfall.RawRecord) (y m : Nat)
    (h : ∀ r ∈ records, ¬(r.year = y ∧ r.month = m)) :
    ∀ s ∈ HKRainfall.calculate_monthly_totals records,
      ¬(s.year = y ∧ s.month = m) := by
  rintro s hs ⟨hy, hm⟩
  have hs2 := (List.Perm.mem_iff (HKRainfall.cmt_perm records)).mp hs
  obtain ⟨p, hp, rfl⟩ := List.mem_map.mp hs2
  rw [HKRainfall.mem_keys_iff] at hp
  obtain ⟨r, hr, hrk⟩ := hp
  apply h r hr
  have h1 : r.year = p.1 := congrArg Prod.fst hrk
  have h2 : r.month = p.2 := congrArg Prod.snd hrk
  simp only [HKRainfall.summaryFor] at hy hm
  exact ⟨h1.trans hy, h2.trans hm⟩

/-- C7 witness: a dataset containing only January 2000 produces no summary
for January 1999. -/
theorem calculate_monthly_totals_absent_period_witness :
    (∀ r ∈ c7records, ¬(r.year = 1999 ∧ r.month = 1)) ∧
    ∀ s ∈ HKRainfall.calculate_monthly_totals c7records,
      ¬(s.year = 1999 ∧ s.month = 1) :=
  ⟨by decide, calculate_monthly_totals_absent_period c7records 1999 1
    (by decide)⟩

namespace HKRainfall

lemma foldl_max_bound (l : List ℚ) (a : ℚ) :
    a ≤ l.foldl max a ∧ ∀ v ∈ l, v ≤ l.foldl max a := by
  induction l generalizing a with
  | nil => simp
  | cons b t ih =>
    simp only [List.foldl_cons]
    obtain ⟨h1, h2⟩ := ih (max a b)
    refine ⟨le_trans (le_max_left a b) h1, ?_⟩
    intro v hv
    rcases List.mem_cons.mp hv with rfl | hvt
    · exact le_trans (le_max_right a v) h1
    · exact h2 v hvt

lemma foldl_min_bound (l : List ℚ) (a : ℚ) :
    l.foldl min a ≤ a ∧ ∀ v ∈ l, l.foldl min a ≤ v := by
  induction l generalizing a with
  | nil => simp
  | cons b t ih =>
    simp only [List.foldl_cons]
    obtain ⟨h1, h2⟩ := ih (min a b)
    refine ⟨le_trans h1 (min_le_left a b), ?_⟩
    intro v hv
    rcases List.mem_cons.mp hv with rfl | hvt
    · exact le_trans h1 (min_le_right a v)
    · exact h2 v hvt

lemma le_pyMax {l : List ℚ} : ∀ v ∈ l, v ≤ pyMax l := by
  intro v hv
  cases l with
  | nil => cases hv
  | cons a t =>
    rcases List.mem_cons.mp hv with rfl | hvt
    · exact (foldl_max_bound t v).1
    · exact (foldl_max_bound t a).2 v hvt

lemma pyMin_le {l : List ℚ} : ∀ v ∈ l, pyMin l ≤ v := by
  intro v hv
  cases l with
  | nil => cases hv
  | cons a t =>
    rcases List.mem_cons.mp hv with rfl | hvt
    · exact (foldl_min_bound t v).1
    · exact (foldl_min_bound t a).2 v hvt

lemma foldl_max_mem (l : List ℚ) (a : ℚ) :
    l.foldl max a = a ∨ l.foldl max a ∈ l := by
  induction l generalizing a with
  | nil => left; rfl
  | cons b t ih =>
    simp only [List.foldl_cons]
    rcases ih (max a b) with hm | hm
    · rcases max_choice a b with hc | hc
      · left; rw [hm, hc]
      · right; rw [hm, hc]; exact List.mem_cons_self b t
    · right; exact List.mem_cons_of_mem b hm

lemma foldl_min_mem (l : List ℚ) (a : ℚ) :
    l.foldl min a = a ∨ l.foldl min a ∈ l := by
  induction l generalizing a with
  | nil => left; rfl
  | cons b t ih =>
    simp only [List.foldl_cons]
    rcases ih (min a b) with hm | hm
    · rcases min_choice a b with hc | hc
      · left; rw [hm, hc]
      · right; rw [hm, hc]; exact List.mem_cons_self b t
    · right; exact List.mem_cons_of_mem b hm

lemma pyMax_mem {l : List ℚ} (h : l ≠ []) : pyMax l ∈ l := by
  cases l with
  | nil => exact absurd rfl h
  | cons a t =>
    show t.foldl max a ∈ a :: t
    rcases foldl_max_mem t a with hm | hm
    · rw [hm]; exact List.mem_cons_self a t
    · exact List.mem_cons_of_mem a hm

lemma pyMin_mem {l : List ℚ} (h : l ≠ []) : pyMin l ∈ l := by
  cases l with
  | nil => exact absurd rfl h
  | cons a t =>
    show t.foldl min a ∈ a :: t
    rcases foldl_min_mem t a with hm | hm
    · rw [hm]; exact List.mem_cons_self a t
    · exact List.mem_cons_of_mem a hm

lemma monthValue_absent (monthly : List PeriodSummary) (year month : Nat)
    (h : ∀ s ∈ monthly, ¬(s.year = year ∧ s.month = month)) :
    monthValue (monthly.filter (fun s => s.year == year)) month = 0 := by
  have hnil : (monthly.filter (fun s => s.year == year)).filter
      (fun s => s.month == month) = [] := by
    rw [List.filter_eq_nil_iff]
    intro s hs hm
    rw [List.mem_filter] at hs
    exact h s hs.1 ⟨by simpa using hs.2, by simpa using hm⟩
  rw [monthValue, hnil]
  rfl

lemma monthValue_present (monthly : List PeriodSummary) (year month : Nat)
    (hdist : monthly.Pairwise (fun a b => (a.year, a.month) ≠ (b.year, b.month)))
    (s : PeriodSummary) (hs : s ∈ monthly) (hy : s.year = year)
    (hm : s.month = month) :
    monthValue (monthly.filter (fun x => x.year == year)) month = s.total := by
  have hsf : s ∈ (monthly.filter (fun x => x.year == year)).filter
      (fun x => x.month == month) :=
    List.mem_filter.mpr
      ⟨List.mem_filter.mpr ⟨hs, by simp [hy]⟩, by simp [hm]⟩
  rw [monthValue]
  cases hh : ((monthly.filter (fun x => x.year == year)).filter
      (fun x => x.month == month)).head? with
  | none =>
    rw [List.head?_eq_none_iff] at hh
    rw [hh] at hsf
    cases hsf
  | some t =>
    have ht : t ∈ (monthly.filter (fun x => x.year == year)).filter
        (fun x => x.month == month) :=
      List.mem_of_mem_head? (by rw [hh]; rfl)
    rw [List.mem_filter] at ht
    have ht1 := ht.1
    rw [List.mem_filter] at ht1
    have htm : t ∈ monthly := ht1.1
    have hty : t.year = year := by simpa using ht1.2
    have htmn : t.month = month := by simpa using ht.2
    have hst : s = t := by
      by_contra hne
      have hsym : Symmetric (fun a b : PeriodSummary =>
          (a.year, a.month) ≠ (b.year, b.month)) := by
        intro x y hxy hyx
        exact hxy hyx.symm
      exact List.Pairwise.forall hsym hdist hs htm hne
        (by rw [hy, hm, hty, htmn])
    rw [hst]

lemma getD_map_lt (f : ℚ → ℚ) (l : List ℚ) (i : Nat) (hi : i < l.length) :
    (l.map f).getD i 0 = f (l.getD i 0) := by
  rw [List.getD_eq_getElem _ _ (by simpa using hi),
    List.getD_eq_getElem _ _ hi, List.getElem_map]

lemma findIdx_max_spec (vals : List ℚ) (hne : vals ≠ []) :
    vals.findIdx (fun v => decide (v = pyMax vals)) < vals.length ∧
    vals.getD (vals.findIdx (fun v => decide (v = pyMax vals))) 0 = pyMax vals ∧
    ∀ j, j < vals.findIdx (fun v => decide (v = pyMax vals)) →
      vals.getD j 0 < pyMax vals := by
  have hidx : vals.findIdx (fun v => decide (v = pyMax vals)) < vals.length :=
    List.findIdx_lt_length.mpr ⟨pyMax vals, pyMax_mem hne, by simp⟩
  refine ⟨hidx, ?_, ?_⟩
  · rw [List.getD_eq_getElem _ _ hidx]
    have := List.findIdx_getElem (w := hidx)
    rwa [decide_eq_true_eq] at this
  · intro j hj
    have hjlt : j < vals.length := lt_trans hj hidx
    rw [List.getD_eq_getElem _ _ hjlt]
    have hne2 := List.not_of_lt_findIdx hj
    rw [decide_eq_false_iff_not] at hne2
    exact lt_of_le_of_ne (le_pyMax _ (List.getElem_mem hjlt)) hne2

lemma findIdx_min_spec (vals : List ℚ) (hne : vals ≠ []) :
    vals.findIdx (fun v => decide (v = pyMin vals)) < vals.length ∧
    vals.getD (vals.findIdx (fun v => decide (v = pyMin vals))) 0 = pyMin vals ∧
    ∀ j, j < vals.findIdx (fun v => decide (v = pyMin vals)) →
      pyMin vals < vals.getD j 0 := by
  have hidx : vals.findIdx (fun v => decide (v = pyMin vals)) < vals.length :=
    List.findIdx_lt_length.mpr ⟨pyMin vals, pyMin_mem hne, by simp⟩
  refine ⟨hidx, ?_, ?_⟩
  · rw [List.getD_eq_getElem _ _ hidx]
    have := List.findIdx_getElem (w := hidx)
    rwa [decide_eq_true_eq] at this
  · intro j hj
    have hjlt : j < vals.length := lt_trans hj hidx
    rw [List.getD_eq_getElem _ _ hjlt]
    have hne2 := List.not_of_lt_findIdx hj
    rw [decide_eq_false_iff_not] at hne2
    exact lt_of_le_of_ne (pyMin_le _ (List.getElem_mem hjlt)) (Ne.symm hne2)

lemma build_values (yd : List PeriodSummary) :
    (build_yearly_frame yd).values
      = (List.range 12).map (fun i => monthValue yd (i + 1)) := rfl

lemma build_total (yd : List PeriodSummary) :
    (build_yearly_frame yd).total = (build_yearly_frame yd).values.sum := rfl

lemma build_avg (yd : List PeriodSummary) :
    (build_yearly_frame yd).avg = (build_yearly_frame yd).total / 12 := rfl

lemma build_wettest (yd : List PeriodSummary) :
    (build_yearly_frame yd).wettestIdx
      = (build_yearly_frame yd).values.findIdx
          (fun v => decide (v = pyMax (build_yearly_frame yd).values)) := rfl

lemma build_driest (yd : List PeriodSummary) :
    (build_yearly_frame yd).driestIdx
      = (build_yearly_frame yd).values.findIdx
          (fun v => decide (v = pyMin (build_yearly_frame yd).values)) := rfl

lemma build_labels (yd : List PeriodSummary) :
    (build_yearly_frame yd).labelYs
      = (build_yearly_frame yd).values.map
          (fun v => if v < 30 then 30 else v + 15) := rfl

end HKRainfall

open HKRainfall in
/-- C5: for every aggregated monthly dataset (one summary per period) and
every year with at least one populated month, the bar-frame renderer
produces a frame with exactly 12 ordered values (Jan..Dec) substituting 0
for absent months, total and mean = total / 12, wettest and driest month
indices attaining the maximum and minimum with first-occurrence
tie-breaking in calendar order, and a positively-positioned numeric label
on every bar — zero-valued bars included, floored at height 30. -/
theorem update_yearly_frame_spec (monthly : List PeriodSummary) (year : Nat)
    (hdist : monthly.Pairwise (fun a b => (a.year, a.month) ≠ (b.year, b.month)))
    (hpop : ∃ s ∈ monthly, s.year = year) :
    ∃ fr, update_yearly_frame monthly year = some fr ∧
      fr.values.length = 12 ∧
      (∀ i, i < 12 → (∀ s ∈ monthly, ¬(s.year = year ∧ s.month = i + 1)) →
        fr.values.getD i 0 = 0) ∧
      (∀ i, i < 12 → ∀ s ∈ monthly, s.year = year → s.month = i + 1 →
        fr.values.getD i 0 = s.total) ∧
      fr.total = fr.values.sum ∧
      fr.avg = fr.total / 12 ∧
      fr.wettestIdx < 12 ∧
      (∀ v ∈ fr.values, v ≤ fr.values.getD fr.wettestIdx 0) ∧
      (∀ j, j < fr.wettestIdx →
        fr.values.getD j 0 < fr.values.getD fr.wettestIdx 0) ∧
      fr.driestIdx < 12 ∧
      (∀ v ∈ fr.values, fr.values.getD fr.driestIdx 0 ≤ v) ∧
      (∀ j, j < fr.driestIdx →
        fr.values.getD fr.driestIdx 0 < fr.values.getD j 0) ∧
      fr.labelYs.length = 12 ∧
      (∀ i, i < 12 →
        fr.labelYs.getD i 0
          = (if fr.values.getD i 0 < 30 then 30 else fr.values.getD i 0 + 15) ∧
        0 < fr.labelYs.getD i 0) := by
  have hydne : monthly.filter (fun s => s.year == year) ≠ [] := by
    obtain ⟨s, hs, hsy⟩ := hpop
    have hmem : s ∈ monthly.filter (fun s => s.year == year) :=
      List.mem_filter.mpr ⟨hs, by simp [hsy]⟩
    intro hnil
    rw [hnil] at hmem
    cases hmem
  have hempty : ¬((monthly.filter (fun s => s.year == year)).isEmpty = true) := by
    simpa [List.isEmpty_iff] using hydne
  have hvals := build_values (monthly.filter (fun s => s.year == year))
  have hvlen :
      (build_yearly_frame (monthly.filter (fun s => s.year == year))).values.length
      = 12 := by rw [hvals]; simp
  have hvne :
      (build_yearly_frame (monthly.filter (fun s => s.year == year))).values
      ≠ [] := by
    intro hnil
    rw [hnil] at hvlen
    simp at hvlen
  have hget : ∀ i, i < 12 →
      (build_yearly_frame (monthly.filter (fun s => s.year == year))).values.getD i 0
      = monthValue (monthly.filter (fun s => s.year == year)) (i + 1) := by
    intro i hi
    rw [hvals, List.getD_eq_getElem _ _ (by simpa using hi), List.getElem_map,
      List.getElem_range]
  refine ⟨build_yearly_frame (monthly.filter (fun s => s.year == year)),
    ?_, hvlen, ?_, ?_, build_total _, build_avg _, ?_, ?_, ?_, ?_, ?_, ?_,
    ?_, ?_⟩
  · simp only [update_yearly_frame]
    rw [if_neg hempty]
  · intro i hi habs
    rw [hget i hi]
    exact monthValue_absent monthly year (i + 1) habs
  · intro i hi s hs hy hm
    rw [hget i hi]
    exact monthValue_present monthly year (i + 1) hdist s hs hy hm
  · rw [build_wettest, ← hvlen]
    exact (findIdx_max_spec _ hvne).1
  · intro v hv
    rw [build_wettest, (findIdx_max_spec _ hvne).2.1]
    exact le_pyMax v hv
  · intro j hj
    rw [build_wettest] at hj
    rw [build_wettest, (findIdx_max_spec _ hvne).2.1]
    exact (findIdx_max_spec _ hvne).2.2 j hj
  · rw [build_driest, ← hvlen]
    exact (findIdx_min_spec _ hvne).1
  · intro v hv
    rw [build_driest, (findIdx_min_spec _ hvne).2.1]
    exact pyMin_le v hv
  · intro j hj
    rw [build_driest] at hj
    rw [build_driest, (findIdx_min_spec _ hvne).2.1]
    exact (findIdx_min_spec _ hvne).2.2 j hj
  · rw [build_labels, List.length_map, hvlen]
  · intro i hi
    constructor
    · rw [build_labels, getD_map_lt _ _ i (by rw [hvlen]; exact hi)]
    · rw [build_labels, getD_map_lt _ _ i (by rw [hvlen]; exact hi)]
      by_cases hc :
        (build_yearly_frame (monthly.filter (fun s => s.year == year))).values.getD i 0 < 30
      · rw [if_pos hc]
        norm_num
      · rw [if_neg hc]
        push_neg at hc
        linarith

/-- C5 witness: the renderer applied to aggregated data with exactly three
populated months in the year 2000 produces a 12-value frame. -/
theorem update_yearly_frame_spec_witness :
    (c5monthly.Pairwise
      (fun a b => (a.year, a.month) ≠ (b.year, b.month))) ∧
    (∃ s ∈ c5monthly, s.year = 2000) ∧
    ∃ fr, HKRainfall.update_yearly_frame c5monthly 2000 = some fr ∧
      fr.values.length = 12 := by
  refine ⟨by decide,
    ⟨⟨2000, 2, 100, (2000, 2, 5)⟩, List.mem_cons_self _ _, rfl⟩, ?_⟩
  obtain ⟨fr, h1, h2, _⟩ := update_yearly_frame_spec c5monthly 2000 (by decide)
    ⟨⟨2000, 2, 100, (2000, 2, 5)⟩, List.mem_cons_self _ _, rfl⟩
  exact ⟨fr, h1, h2⟩
